import Mathlib

/-!
# Verification of the vSAN SDK monitoring tool

Shallow embedding of the reporting tool (`libs/util.py`,
`libs/vsanclustercheck.py`, `queryvsancluster.py`) and proofs about it.

Modelling conventions:
* Python `str` values are Lean `String`s; where character-level reasoning is
  needed (slicing, ordering by code point) we use `String.data : List Char`,
  which matches Python's view of a `str` as a sequence of code points.
* Python `int` is `ℤ` (arbitrary precision in both).
* Python float ("true") division is division on `ℚ`, with CPython's
  rounding made explicit where it occurs.  In `convert_bytes` the float
  operations are the int-to-double conversion performed by the first
  `nb_bytes /= 1024.` (or by `'%.2f'` when the loop never runs) — rounding
  to 53 significant bits, nearest, ties to even, modeled exactly by
  `pyFloatOfNat` — and the subsequent divisions by `1024.0`, which are
  exact on binary64 (they only decrement the exponent and cannot reach the
  subnormal range here), so exact `ℚ` division models them.  The model
  keeps an unbounded exponent: CPython raises `OverflowError` converting
  ints at or above roughly `1.8e308`, far beyond the 64-bit byte counts the
  remote API can deliver.  In the capacity percentages the operands are
  API byte counts, again far below `2 ^ 53`, where conversion is exact.
* `None` is `Option.none`; values that may be `None` have `Option` types.
* A raised exception is an `Except.error` carrying a `PyError`.
-/

namespace VsanMonitor

/-- Python `print(a, b, ...)` joins its arguments with a single space.  We
model one `print` call as the single line it emits. -/
def pyPrint (parts : List String) : String := String.intercalate " " parts

/-- Python `str.rstrip(c)` for a single-character argument: remove every
trailing occurrence of `c`. -/
def rstrip (c : Char) (s : String) : String :=
  String.mk ((s.data.reverse.dropWhile (fun x => x == c)).reverse)

/-- Python `'{:<w}'.format(s)` / `str.ljust`: pad on the right with spaces. -/
def ljust (s : String) (w : ℕ) : String :=
  s ++ String.mk (List.replicate (w - s.length) ' ')

/-- Python `'{:>w}'.format(s)`: pad on the left with spaces. -/
def rjust (s : String) (w : ℕ) : String :=
  String.mk (List.replicate (w - s.length) ' ') ++ s

/-- Python `str(x)` for an optional boolean (`'{}'.format` of a value that is
`True`, `False` or `None`). -/
def pyStrOptBool : Option Bool → String
  | none => "None"
  | some true => "True"
  | some false => "False"

/-- Round to the nearest integer, ties to even: the rounding used by C
`printf`/Python `'%.2f'` when the value is exactly representable. -/
def roundHalfEven (q : ℚ) : ℤ :=
  if 2 * (q - ⌊q⌋) < 1 then ⌊q⌋
  else if 1 < 2 * (q - ⌊q⌋) then ⌊q⌋ + 1
  else if ⌊q⌋ % 2 = 0 then ⌊q⌋ else ⌊q⌋ + 1

/-- Render a natural number of hundredths as a fixed two-decimal string. -/
def hundredths2f (n : ℕ) : String :=
  toString (n / 100) ++ "." ++ (if n % 100 < 10 then "0" ++ toString (n % 100) else toString (n % 100))

/-- Python `'%.2f' % q`: two decimal places, rounding ties to even.  (The
tool only formats nonnegative quantities; for negative `q` we render
`-` followed by the magnitude, which matches Python except for the
`-0.00` corner that never occurs here.) -/
def pyFormat2f (q : ℚ) : String :=
  let m := roundHalfEven (100 * q)
  if m < 0 then "-" ++ hundredths2f m.natAbs else hundredths2f m.toNat

/-- The `colored` package's `fg(name)`: the 256-color foreground escape
sequence for the three color names the tool uses. -/
def fg (color : String) : String :=
  if color = "green" then "\x1b[38;5;2m"
  else if color = "yellow" then "\x1b[38;5;3m"
  else if color = "red" then "\x1b[38;5;1m"
  else ""

/-- The `colored` package's `attr('reset')`. -/
def attrReset : String := "\x1b[0m"

/- ### `libs/util.py` -/

/-- `util.convert_bytes` suffix table. -/
def suffixes : List String := ["B", "KB", "MB", "GB", "TB", "PB"]

/-- CPython's conversion of a nonnegative int to a binary64 double
(`PyLong_AsDouble`): round to 53 significant bits, to nearest, ties to
even.  Exact (the identity) below `2 ^ 53`.  The exponent is unbounded
here; CPython raises `OverflowError` near `1.8e308`, beyond any input the
tool can receive. -/
def pyFloatOfNat (n : ℕ) : ℕ :=
  if n < 2 ^ 53 then n
  else
    let e := Nat.log 2 n - 52
    let q := n / 2 ^ e
    let r := n % 2 ^ e
    let half := 2 ^ (e - 1)
    let q' := if r < half then q
      else if half < r then q + 1
      else if q % 2 = 0 then q else q + 1
    q' * 2 ^ e

/-- CPython's int-to-double conversion on `ℤ`, as a rational value. -/
def pyFloatOfInt (n : ℤ) : ℚ :=
  if n < 0 then -(pyFloatOfNat n.natAbs : ℚ) else (pyFloatOfNat n.toNat : ℚ)

/-- The `while nb_bytes >= 1024 and i < len(suffixes) - 1` loop of
`convert_bytes`, after the first division (from which point the value is a
double and every division by `1024.0` is exact).  The loop body runs at
most 5 times in total because `i` increases on every iteration, so fuel 4
remains after the first iteration. -/
def convertLoop : ℕ → ℚ → ℕ → ℚ × ℕ
  | 0, v, i => (v, i)
  | fuel + 1, v, i =>
      if 1024 ≤ v ∧ i < 5 then convertLoop fuel (v / 1024) (i + 1) else (v, i)

/-- `util.convert_bytes`.  The first loop test compares the *int*
`nb_bytes` with 1024; if the body runs, `nb_bytes /= 1024.` converts the
int to a double (`pyFloatOfInt`) and divides exactly.  If the loop never
runs, `'%.2f' % nb_bytes` itself converts the int to a double. -/
def convert_bytes (nb_bytes : ℤ) : String :=
  if 1024 ≤ nb_bytes then
    let r := convertLoop 4 (pyFloatOfInt nb_bytes / 1024) 1
    rstrip '.' (rstrip '0' (pyFormat2f r.1)) ++ " " ++ suffixes.getD r.2 ""
  else
    rstrip '.' (rstrip '0' (pyFormat2f (pyFloatOfInt nb_bytes))) ++ " " ++ suffixes.getD 0 ""

/-- `util.print_green`. -/
def print_green (s : String) : String := fg "green" ++ s ++ attrReset

/-- `util.print_yellow`. -/
def print_yellow (s : String) : String := fg "yellow" ++ s ++ attrReset

/-- `util.print_red`. -/
def print_red (s : String) : String := fg "red" ++ s ++ attrReset

/-- `util.print_yes_no`; despite the `bool` annotation the code checks
`value is None` first, so the input is an optional boolean. -/
def print_yes_no : Option Bool → String
  | none => print_yellow "Unknown"
  | some true => print_green "Yes"
  | some false => print_red "No"

/-- `util.print_no_yes`. -/
def print_no_yes : Option Bool → String
  | none => print_yellow "Unknown"
  | some true => print_red "Yes"
  | some false => print_green "No"

/-- `util.print_thresholds_inc`; the defaults `yellow=60, red=80` are
supplied at the call sites. -/
def print_thresholds_inc (value : ℚ) (yellow red : ℤ) : String :=
  if value < (yellow : ℚ) then fg "green" ++ pyFormat2f value ++ "%" ++ attrReset
  else if value < (red : ℚ) then fg "yellow" ++ pyFormat2f value ++ "%" ++ attrReset
  else fg "red" ++ pyFormat2f value ++ "%" ++ attrReset

/-- `util.print_thresholds_dec`; the defaults `green=40, yellow=20` are
supplied at the call sites. -/
def print_thresholds_dec (value : ℚ) (green yellow : ℤ) : String :=
  if (green : ℚ) < value then fg "green" ++ pyFormat2f value ++ "%" ++ attrReset
  else if (yellow : ℚ) < value then fg "yellow" ++ pyFormat2f value ++ "%" ++ attrReset
  else fg "red" ++ pyFormat2f value ++ "%" ++ attrReset

/- ### Helper lemmas about strings -/

/-- Two appends with equal-length distinct left parts are distinct. -/
theorem append_left_ne {p q : String} (s t : String)
    (hl : p.length = q.length) (hne : p ≠ q) : p ++ s ≠ q ++ t := by
  intro he
  apply hne
  have hd : p.data ++ s.data = q.data ++ t.data := by
    have := congrArg String.data he
    simpa using this
  exact String.ext (List.append_inj_left hd hl)

/-- Four-part appends with equal-length distinct heads are distinct. -/
theorem quad_append_ne {p q : String} (b₁ b₂ m₁ m₂ r₁ r₂ : String)
    (hl : p.length = q.length) (hne : p ≠ q) :
    p ++ b₁ ++ m₁ ++ r₁ ≠ q ++ b₂ ++ m₂ ++ r₂ := by
  intro he
  apply hne
  have hd := congrArg String.data he
  simp only [String.data_append, List.append_assoc] at hd
  exact String.ext (List.append_inj_left hd hl)

/-- C9: `print_yes_no` and `print_no_yes` both accept `None` and return the
yellow string `Unknown` for it; on booleans they render the same text
(`Yes` for `True`, `No` for `False`) and differ only in the color:
`print_yes_no` colors `True` green and `False` red, `print_no_yes` colors
`True` red and `False` green. -/
theorem print_yes_no_print_no_yes_spec :
    print_yes_no none = print_yellow "Unknown"
    ∧ print_no_yes none = print_yellow "Unknown"
    ∧ print_yes_no (some true) = print_green "Yes"
    ∧ print_yes_no (some false) = print_red "No"
    ∧ print_no_yes (some true) = print_red "Yes"
    ∧ print_no_yes (some false) = print_green "No" :=
  ⟨rfl, rfl, rfl, rfl, rfl, rfl⟩

/-- C3: for `yellow ≤ red`, `print_thresholds_inc` renders the value as
`%.2f%%` wrapped in exactly one color: green iff `value < yellow`, yellow
iff `yellow ≤ value < red`, red iff `value ≥ red`; the three ranges are
exhaustive (and, being disjoint ranges, mutually exclusive). -/
theorem print_thresholds_inc_spec (v : ℚ) (yellow red : ℤ) (h : yellow ≤ red) :
    (print_thresholds_inc v yellow red = fg "green" ++ pyFormat2f v ++ "%" ++ attrReset
        ↔ v < (yellow : ℚ))
    ∧ (print_thresholds_inc v yellow red = fg "yellow" ++ pyFormat2f v ++ "%" ++ attrReset
        ↔ ((yellow : ℚ) ≤ v ∧ v < (red : ℚ)))
    ∧ (print_thresholds_inc v yellow red = fg "red" ++ pyFormat2f v ++ "%" ++ attrReset
        ↔ (red : ℚ) ≤ v)
    ∧ (v < (yellow : ℚ) ∨ ((yellow : ℚ) ≤ v ∧ v < (red : ℚ)) ∨ (red : ℚ) ≤ v) := by
  have hyr : (yellow : ℚ) ≤ (red : ℚ) := by exact_mod_cast h
  have hgy : fg "green" ≠ fg "yellow" := by decide
  have hgr : fg "green" ≠ fg "red" := by decide
  have hyr' : fg "yellow" ≠ fg "red" := by decide
  have hlgy : (fg "green").length = (fg "yellow").length := by decide
  have hlgr : (fg "green").length = (fg "red").length := by decide
  have hlyr : (fg "yellow").length = (fg "red").length := by decide
  rcases lt_or_le v (yellow : ℚ) with h1 | h1
  · have e : print_thresholds_inc v yellow red
        = fg "green" ++ pyFormat2f v ++ "%" ++ attrReset := by
      simp [print_thresholds_inc, if_pos h1]
    rw [e]
    refine ⟨by simpa using h1, ?_, ?_, Or.inl h1⟩
    · constructor
      · intro he
        exact absurd he (quad_append_ne _ _ _ _ _ _ hlgy hgy)
      · rintro ⟨hy, -⟩
        exact absurd h1 (not_lt.mpr hy)
    · constructor
      · intro he
        exact absurd he (quad_append_ne _ _ _ _ _ _ hlgr hgr)
      · intro hr
        exact absurd (lt_of_lt_of_le h1 hyr) (not_lt.mpr hr)
  · rcases lt_or_le v (red : ℚ) with h2 | h2
    · have e : print_thresholds_inc v yellow red
          = fg "yellow" ++ pyFormat2f v ++ "%" ++ attrReset := by
        simp [print_thresholds_inc, if_neg (not_lt.mpr h1), if_pos h2]
      rw [e]
      refine ⟨?_, by simp [h1, h2], ?_, Or.inr (Or.inl ⟨h1, h2⟩)⟩
      · constructor
        · intro he
          exact absurd he.symm (quad_append_ne _ _ _ _ _ _ hlgy hgy)
        · intro hv
          exact absurd hv (not_lt.mpr h1)
      · constructor
        · intro he
          exact absurd he (quad_append_ne _ _ _ _ _ _ hlyr hyr')
        · intro hr
          exact absurd h2 (not_lt.mpr hr)
    · have e : print_thresholds_inc v yellow red
          = fg "red" ++ pyFormat2f v ++ "%" ++ attrReset := by
        simp [print_thresholds_inc, if_neg (not_lt.mpr h1), if_neg (not_lt.mpr h2)]
      rw [e]
      refine ⟨?_, ?_, by simp [h2], Or.inr (Or.inr h2)⟩
      · constructor
        · intro he
          exact absurd he.symm (quad_append_ne _ _ _ _ _ _ hlgr hgr)
        · intro hv
          exact absurd hv (not_lt.mpr h1)
      · constructor
        · intro he
          exact absurd he.symm (quad_append_ne _ _ _ _ _ _ hlyr hyr')
        · rintro ⟨-, hv⟩
          exact absurd hv (not_lt.mpr h2)

/-- Witness for C3 at `value = 70` with the default thresholds 60 and 80:
the rendering is wrapped in yellow and only in yellow. -/
theorem print_thresholds_inc_spec_witness :
    (print_thresholds_inc 70 60 80 = fg "yellow" ++ pyFormat2f 70 ++ "%" ++ attrReset) :=
  ((print_thresholds_inc_spec 70 60 80 (by norm_num)).2.1).mpr (by norm_num)

/-- C4: for `green ≥ yellow`, `print_thresholds_dec` renders the value as
`%.2f%%` wrapped in exactly one color, with strict comparisons: green iff
`value > green`, yellow iff `yellow < value ≤ green`, red iff
`value ≤ yellow`; a value equal to the green threshold is yellow and a
value equal to the yellow threshold is red. -/
theorem print_thresholds_dec_spec (v : ℚ) (green yellow : ℤ) (h : yellow ≤ green) :
    (print_thresholds_dec v green yellow = fg "green" ++ pyFormat2f v ++ "%" ++ attrReset
        ↔ (green : ℚ) < v)
    ∧ (print_thresholds_dec v green yellow = fg "yellow" ++ pyFormat2f v ++ "%" ++ attrReset
        ↔ ((yellow : ℚ) < v ∧ v ≤ (green : ℚ)))
    ∧ (print_thresholds_dec v green yellow = fg "red" ++ pyFormat2f v ++ "%" ++ attrReset
        ↔ v ≤ (yellow : ℚ))
    ∧ (print_thresholds_dec (green : ℚ) green yellow
          = fg "yellow" ++ pyFormat2f (green : ℚ) ++ "%" ++ attrReset
        ∨ green = yellow)
    ∧ print_thresholds_dec (yellow : ℚ) green yellow
        = fg "red" ++ pyFormat2f (yellow : ℚ) ++ "%" ++ attrReset := by
  have hyg : (yellow : ℚ) ≤ (green : ℚ) := by exact_mod_cast h
  have hgy : fg "green" ≠ fg "yellow" := by decide
  have hgr : fg "green" ≠ fg "red" := by decide
  have hyr' : fg "yellow" ≠ fg "red" := by decide
  have hlgy : (fg "green").length = (fg "yellow").length := by decide
  have hlgr : (fg "green").length = (fg "red").length := by decide
  have hlyr : (fg "yellow").length = (fg "red").length := by decide
  have main : ∀ w : ℚ,
      (print_thresholds_dec w green yellow = fg "green" ++ pyFormat2f w ++ "%" ++ attrReset
          ↔ (green : ℚ) < w)
      ∧ (print_thresholds_dec w green yellow = fg "yellow" ++ pyFormat2f w ++ "%" ++ attrReset
          ↔ ((yellow : ℚ) < w ∧ w ≤ (green : ℚ)))
      ∧ (print_thresholds_dec w green yellow = fg "red" ++ pyFormat2f w ++ "%" ++ attrReset
          ↔ w ≤ (yellow : ℚ)) := by
    intro w
    rcases lt_or_le (green : ℚ) w with h1 | h1
    · have e : print_thresholds_dec w green yellow
          = fg "green" ++ pyFormat2f w ++ "%" ++ attrReset := by
        simp [print_thresholds_dec, if_pos h1]
      rw [e]
      refine ⟨by simp [h1], ?_, ?_⟩
      · constructor
        · intro he
          exact absurd he (quad_append_ne _ _ _ _ _ _ hlgy hgy)
        · rintro ⟨-, hw⟩
          exact absurd h1 (not_lt.mpr hw)
      · constructor
        · intro he
          exact absurd he (quad_append_ne _ _ _ _ _ _ hlgr hgr)
        · intro hw
          exact absurd h1 (not_lt.mpr (le_trans hw hyg))
    · rcases lt_or_le (yellow : ℚ) w with h2 | h2
      · have e : print_thresholds_dec w green yellow
            = fg "yellow" ++ pyFormat2f w ++ "%" ++ attrReset := by
          simp [print_thresholds_dec, if_neg (not_lt.mpr h1), if_pos h2]
        rw [e]
        refine ⟨?_, by simp [h1, h2], ?_⟩
        · constructor
          · intro he
            exact absurd he.symm (quad_append_ne _ _ _ _ _ _ hlgy hgy)
          · intro hw
            exact absurd hw (not_lt.mpr h1)
        · constructor
          · intro he
            exact absurd he (quad_append_ne _ _ _ _ _ _ hlyr hyr')
          · intro hw
            exact absurd h2 (not_lt.mpr hw)
      · have e : print_thresholds_dec w green yellow
            = fg "red" ++ pyFormat2f w ++ "%" ++ attrReset := by
          simp [print_thresholds_dec, if_neg (not_lt.mpr h1), if_neg (not_lt.mpr h2)]
        rw [e]
        refine ⟨?_, ?_, by simp [h2]⟩
        · constructor
          · intro he
            exact absurd he.symm (quad_append_ne _ _ _ _ _ _ hlgr hgr)
          · intro hw
            exact absurd hw (not_lt.mpr (le_trans h2 hyg))
        · constructor
          · intro he
            exact absurd he.symm (quad_append_ne _ _ _ _ _ _ hlyr hyr')
          · rintro ⟨hw, -⟩
            exact absurd hw (not_lt.mpr h2)
  refine ⟨(main v).1, (main v).2.1, (main v).2.2, ?_, ?_⟩
  · rcases eq_or_lt_of_le h with rfl | hlt
    · exact Or.inr rfl
    · refine Or.inl (((main (green : ℚ)).2.1).mpr ⟨by exact_mod_cast hlt, le_refl _⟩)
  · exact ((main (yellow : ℚ)).2.2).mpr (le_refl _)

/- ### `convert_bytes` (claim C2) -/

/-- The claim's index: the number of times `n` can be divided by 1024 while
remaining at least 1024, capped at 5 — equivalently the largest `k ≤ 5`
with `1024 ^ k ≤ n` (0 for `n < 1024`). -/
def specIndex (n : ℕ) : ℕ :=
  if n < 1024 then 0
  else if n < 1024 ^ 2 then 1
  else if n < 1024 ^ 3 then 2
  else if n < 1024 ^ 4 then 3
  else if n < 1024 ^ 5 then 4
  else 5

theorem specIndex_le5 (n : ℕ) : specIndex n ≤ 5 := by
  unfold specIndex
  split_ifs <;> omega

theorem pow_le_of_le_specIndex (n k : ℕ) (h1 : 1 ≤ k) (h2 : k ≤ specIndex n) :
    1024 ^ k ≤ n := by
  have mono : ∀ i : ℕ, k ≤ i → 1024 ^ i ≤ n → 1024 ^ k ≤ n := fun i hki hi =>
    le_trans (Nat.pow_le_pow_right (by norm_num) hki) hi
  unfold specIndex at h2
  split_ifs at h2 with a1 a2 a3 a4 a5
  · omega
  · have : k = 1 := by omega
    subst this
    simpa using not_lt.mp a1
  · exact mono 2 h2 (not_lt.mp a2)
  · exact mono 3 h2 (not_lt.mp a3)
  · exact mono 4 h2 (not_lt.mp a4)
  · exact mono 5 h2 (not_lt.mp a5)

theorem le_specIndex_of_pow_le (n k : ℕ) (hk : k ≤ 5) (h : 1024 ^ k ≤ n) :
    k ≤ specIndex n := by
  have hb : (1 : ℕ) < 1024 := by norm_num
  unfold specIndex
  split_ifs with a1 a2 a3 a4 a5
  · have : 1024 ^ k < 1024 ^ 1 := by
      calc 1024 ^ k ≤ n := h
        _ < 1024 := a1
        _ = 1024 ^ 1 := (pow_one 1024).symm
    have := (Nat.pow_lt_pow_iff_right hb).mp this
    omega
  · have : 1024 ^ k < 1024 ^ 2 := lt_of_le_of_lt h a2
    have := (Nat.pow_lt_pow_iff_right hb).mp this
    omega
  · have : 1024 ^ k < 1024 ^ 3 := lt_of_le_of_lt h a3
    have := (Nat.pow_lt_pow_iff_right hb).mp this
    omega
  · have : 1024 ^ k < 1024 ^ 4 := lt_of_le_of_lt h a4
    have := (Nat.pow_lt_pow_iff_right hb).mp this
    omega
  · have : 1024 ^ k < 1024 ^ 5 := lt_of_le_of_lt h a5
    have := (Nat.pow_lt_pow_iff_right hb).mp this
    omega
  · exact hk

theorem lt_pow_specIndex_succ (n : ℕ) (h : specIndex n ≠ 5) :
    n < 1024 ^ (specIndex n + 1) := by
  unfold specIndex at h ⊢
  split_ifs at h ⊢ with a1 a2 a3 a4 a5
  · simpa using a1
  · exact a2
  · exact a3
  · exact a4
  · exact a5
  · omega

/-- The loop guard `nb_bytes >= 1024` on the value after `k` divisions. -/
theorem loop_cond (n k : ℕ) :
    (1024 : ℚ) ≤ (n : ℚ) / 1024 ^ k ↔ 1024 ^ (k + 1) ≤ n := by
  rw [le_div_iff₀ (by positivity)]
  rw [show ((1024 : ℚ) * 1024 ^ k) = ((1024 ^ (k + 1) : ℕ) : ℚ) by push_cast; ring]
  exact Nat.cast_le

theorem div_step (n : ℕ) (k : ℕ) :
    ((n : ℚ) / 1024 ^ k) / 1024 = (n : ℚ) / 1024 ^ (k + 1) := by
  rw [div_div, pow_succ]

theorem convertLoop_stop (fuel : ℕ) (v : ℚ) (i : ℕ)
    (h : ¬(1024 ≤ v ∧ i < 5)) : convertLoop fuel v i = (v, i) := by
  cases fuel <;> simp [convertLoop, h]

theorem convertLoop_step (fuel : ℕ) (v : ℚ) (i : ℕ)
    (h : 1024 ≤ v) (hi : i < 5) :
    convertLoop (fuel + 1) v i = convertLoop fuel (v / 1024) (i + 1) := by
  simp [convertLoop, h, hi]

theorem convertLoop_eval (fuel : ℕ) : ∀ n j : ℕ, j + fuel = 5 → j ≤ specIndex n →
    convertLoop fuel ((n : ℚ) / 1024 ^ j) j
      = ((n : ℚ) / 1024 ^ specIndex n, specIndex n) := by
  induction fuel with
  | zero =>
    intro n j hf hj
    have h5 := specIndex_le5 n
    have hj5 : j = 5 := by omega
    have hs5 : specIndex n = 5 := by omega
    rw [convertLoop_stop _ _ _ (by omega), hj5, hs5]
  | succ fuel ih =>
    intro n j hf hj
    rcases eq_or_lt_of_le hj with he | hlt
    · rw [← he]
      apply convertLoop_stop
      rintro ⟨hc, hj5⟩
      have hpow : 1024 ^ (j + 1) ≤ n := (loop_cond n j).mp hc
      have := le_specIndex_of_pow_le n (j + 1) (by omega) hpow
      omega
    · have hj5 : j < 5 := lt_of_lt_of_le hlt (specIndex_le5 n)
      have hcond : (1024 : ℚ) ≤ (n : ℚ) / 1024 ^ j :=
        (loop_cond n j).mpr (pow_le_of_le_specIndex n (j + 1) (by omega) (by omega))
      rw [convertLoop_step _ _ _ hcond hj5, div_step]
      exact ih n (j + 1) (by omega) (by omega)

/-- Ties-to-even rounding never exceeds any strict integer upper bound. -/
theorem roundHalfEven_le_of_lt (q : ℚ) (m : ℤ) (h : q < (m : ℚ)) :
    roundHalfEven q ≤ m := by
  have hf : ⌊q⌋ < m := by
    have h1 : (⌊q⌋ : ℚ) ≤ q := Int.floor_le q
    exact_mod_cast lt_of_le_of_lt h1 h
  unfold roundHalfEven
  split_ifs <;> omega

theorem pyFloatOfNat_of_lt (n : ℕ) (h : n < 2 ^ 53) : pyFloatOfNat n = n := by
  rw [pyFloatOfNat, if_pos h]

theorem pyFloatOfNat_large_ge (n : ℕ) (h : 2 ^ 53 ≤ n) : 2 ^ 53 ≤ pyFloatOfNat n := by
  have hn0 : n ≠ 0 := by
    intro h0
    rw [h0] at h
    simp at h
  have hlog : 53 ≤ Nat.log 2 n := (Nat.pow_le_iff_le_log (by norm_num) hn0).mp h
  have key : 2 ^ 53 ≤ n / 2 ^ (Nat.log 2 n - 52) * 2 ^ (Nat.log 2 n - 52) := by
    have hq : 2 ^ 52 ≤ n / 2 ^ (Nat.log 2 n - 52) := by
      rw [Nat.le_div_iff_mul_le (by positivity)]
      calc 2 ^ 52 * 2 ^ (Nat.log 2 n - 52) = 2 ^ (52 + (Nat.log 2 n - 52)) := by
            rw [pow_add]
        _ = 2 ^ Nat.log 2 n := by
            congr 1
            omega
        _ ≤ n := Nat.pow_log_le_self 2 hn0
    calc 2 ^ 53 = 2 ^ 52 * 2 ^ 1 := by norm_num
      _ ≤ 2 ^ 52 * 2 ^ (Nat.log 2 n - 52) := by
          apply Nat.mul_le_mul_left
          apply Nat.pow_le_pow_right (by norm_num)
          omega
      _ ≤ n / 2 ^ (Nat.log 2 n - 52) * 2 ^ (Nat.log 2 n - 52) :=
          Nat.mul_le_mul_right _ hq
  simp only [pyFloatOfNat, if_neg (not_lt.mpr h)]
  split_ifs with h1 h2 h3
  · exact key
  · exact le_trans key (Nat.mul_le_mul_right _ (by omega))
  · exact key
  · exact le_trans key (Nat.mul_le_mul_right _ (by omega))

theorem pyFloatOfNat_ge_1024 (n : ℕ) (h : 1024 ≤ n) : 1024 ≤ pyFloatOfNat n := by
  rcases lt_or_le n (2 ^ 53) with hlt | hge
  · rw [pyFloatOfNat_of_lt n hlt]
    exact h
  · exact le_trans (by norm_num) (pyFloatOfNat_large_ge n hge)

theorem pyFloatOfInt_natCast (n : ℕ) :
    pyFloatOfInt (n : ℤ) = (pyFloatOfNat n : ℚ) := by
  simp [pyFloatOfInt, not_lt.mpr (Int.natCast_nonneg n)]

/-- C2 (amended): `convert_bytes n` is `double(n) / 1024 ^ i` rendered with
two decimal places, trailing zeros and a trailing decimal point stripped,
followed by the `i`-th suffix — where `double(n) = pyFloatOfNat n` is
CPython's int-to-double value of `n` (round to nearest, ties to even,
equal to `n` below `2 ^ 53`) and `i = specIndex (pyFloatOfNat n)` is the
number of times that value can be divided by 1024 while remaining
`≥ 1024`, capped at 5 (so `i = 0` for `n < 1024`); when the suffix is not
`PB` the numeric value rendered is at most `1024.00` (it can round up to
exactly 1024, so it is not always strictly below 1024). -/
theorem convert_bytes_spec (n : ℕ) :
    convert_bytes (n : ℤ)
      = rstrip '.' (rstrip '0'
          (pyFormat2f ((pyFloatOfNat n : ℚ) / 1024 ^ specIndex (pyFloatOfNat n)))) ++ " "
        ++ suffixes.getD (specIndex (pyFloatOfNat n)) ""
    ∧ (specIndex (pyFloatOfNat n) ≠ 5 →
        roundHalfEven (100 * ((pyFloatOfNat n : ℚ) / 1024 ^ specIndex (pyFloatOfNat n)))
          ≤ 102400) := by
  constructor
  · rcases lt_or_le n 1024 with hlt | hge
    · have hpf : pyFloatOfNat n = n := pyFloatOfNat_of_lt n (lt_trans hlt (by norm_num))
      have hidx : specIndex (pyFloatOfNat n) = 0 := by
        rw [hpf]
        simp [specIndex, hlt]
      rw [hidx, pow_zero, div_one]
      simp only [convert_bytes, if_neg (by exact_mod_cast not_le.mpr hlt : ¬(1024 : ℤ) ≤ (n : ℤ))]
      rw [pyFloatOfInt_natCast]
    · have hm : 1024 ≤ pyFloatOfNat n := pyFloatOfNat_ge_1024 n hge
      have h1 : 1 ≤ specIndex (pyFloatOfNat n) :=
        le_specIndex_of_pow_le _ 1 (by norm_num) (by simpa using hm)
      have hloop := convertLoop_eval 4 (pyFloatOfNat n) 1 (by omega) h1
      rw [pow_one] at hloop
      simp only [convert_bytes, if_pos (by exact_mod_cast hge : (1024 : ℤ) ≤ (n : ℤ)),
        pyFloatOfInt_natCast, hloop]
  · intro h5
    have hlt : (pyFloatOfNat n : ℚ) / 1024 ^ specIndex (pyFloatOfNat n) < 1024 := by
      rw [div_lt_iff₀ (by positivity)]
      calc (pyFloatOfNat n : ℚ)
          < ((1024 ^ (specIndex (pyFloatOfNat n) + 1) : ℕ) : ℚ) := by
            exact_mod_cast lt_pow_specIndex_succ (pyFloatOfNat n) h5
        _ = 1024 * 1024 ^ specIndex (pyFloatOfNat n) := by push_cast; ring
    apply roundHalfEven_le_of_lt
    calc 100 * ((pyFloatOfNat n : ℚ) / 1024 ^ specIndex (pyFloatOfNat n)) < 100 * 1024 :=
          (mul_lt_mul_left (by norm_num)).mpr hlt
      _ = ((102400 : ℤ) : ℚ) := by norm_num

/-- Witness for C2 at `n = 2048` (below `2 ^ 53`, so the double equals the
int): the suffix is `KB` (index 1, not `PB`) and both conjuncts hold. -/
theorem convert_bytes_spec_witness :
    specIndex (pyFloatOfNat 2048) ≠ 5
    ∧ convert_bytes (2048 : ℤ)
        = rstrip '.' (rstrip '0'
            (pyFormat2f ((pyFloatOfNat 2048 : ℚ) / 1024 ^ specIndex (pyFloatOfNat 2048)))) ++ " "
          ++ suffixes.getD (specIndex (pyFloatOfNat 2048)) ""
    ∧ roundHalfEven
        (100 * ((pyFloatOfNat 2048 : ℚ) / 1024 ^ specIndex (pyFloatOfNat 2048))) ≤ 102400 :=
  ⟨by decide, (convert_bytes_spec 2048).1, (convert_bytes_spec 2048).2 (by decide)⟩

/-- Counterexample to C2 as stated: at `nb_bytes = 2 ^ 50 - 1` (exactly
representable as a double, so no conversion rounding is involved) the loop
stops at index 4 (suffix `TB`, not `PB`) with value `1024 - 2 ^ (-40)`,
but `%.2f` rounds that up to `1024.00`, so the rendered numeric value is
exactly `1024`, not strictly less than 1024. -/
theorem convert_bytes_claim_counterexample :
    specIndex 1125899906842623 = 4
    ∧ suffixes.getD (specIndex 1125899906842623) "" = "TB"
    ∧ convert_bytes (1125899906842623 : ℤ) = "1024 TB" := by
  refine ⟨by decide, by decide, ?_⟩
  have hfl : ⌊(100 : ℚ) * ((1125899906842623 : ℚ) / 1024 ^ 4)⌋ = 102399 := by
    rw [Int.floor_eq_iff]
    constructor
    · norm_num
    · norm_num
  have hrhe : roundHalfEven ((100 : ℚ) * ((1125899906842623 : ℚ) / 1024 ^ 4)) = 102400 := by
    unfold roundHalfEven
    rw [hfl]
    rw [if_neg (by norm_num), if_pos (by norm_num)]
    norm_num
  have hfmt : pyFormat2f ((1125899906842623 : ℚ) / 1024 ^ 4) = "1024.00" := by
    simp only [pyFormat2f, hrhe]
    decide
  have hpf : pyFloatOfInt (1125899906842623 : ℤ) = (1125899906842623 : ℚ) := by
    have h1 : pyFloatOfInt ((1125899906842623 : ℕ) : ℤ)
        = (pyFloatOfNat 1125899906842623 : ℚ) := pyFloatOfInt_natCast _
    have h2 : pyFloatOfNat 1125899906842623 = 1125899906842623 :=
      pyFloatOfNat_of_lt _ (by norm_num)
    rw [h2] at h1
    exact_mod_cast h1
  have hloop : convertLoop 4 (pyFloatOfInt (1125899906842623 : ℤ) / 1024) 1
      = ((1125899906842623 : ℚ) / 1024 ^ 4, 4) := by
    rw [hpf]
    rw [convertLoop_step _ _ _ (by norm_num) (by norm_num)]
    rw [convertLoop_step _ _ _ (by norm_num) (by norm_num)]
    rw [convertLoop_step _ _ _ (by norm_num) (by norm_num)]
    rw [convertLoop_stop _ _ _ (by norm_num)]
    rw [Prod.mk.injEq]
    exact ⟨by norm_num [div_div], by norm_num⟩
  simp only [convert_bytes, if_pos (by norm_num : (1024 : ℤ) ≤ 1125899906842623),
    hloop, hfmt]
  decide

/-- The int-to-double conversion in `convert_bytes` is observable: the odd
54-bit int `9384375723533271` is rounded up to the even-significand double
`9384375723533272` by the first `nb_bytes /= 1024.`, and the program
prints `8.34 PB` — exact rational division of the original int would give
`833.5 - 2 ^ (-48)` hundredths and print `8.33 PB`. -/
theorem convert_bytes_float_rounding :
    pyFloatOfNat 9384375723533271 = 9384375723533272
    ∧ convert_bytes (9384375723533271 : ℤ) = "8.34 PB" := by
  have hlog : Nat.log 2 9384375723533271 = 53 :=
    Nat.log_eq_of_pow_le_of_lt_pow (by norm_num) (by norm_num)
  have hpf : pyFloatOfNat 9384375723533271 = 9384375723533272 := by
    simp only [pyFloatOfNat, if_neg (by norm_num : ¬(9384375723533271 : ℕ) < 2 ^ 53), hlog]
    decide
  refine ⟨hpf, ?_⟩
  have hpfq : pyFloatOfInt (9384375723533271 : ℤ) = (9384375723533272 : ℚ) := by
    have h1 : pyFloatOfInt ((9384375723533271 : ℕ) : ℤ)
        = (pyFloatOfNat 9384375723533271 : ℚ) := pyFloatOfInt_natCast _
    rw [hpf] at h1
    exact_mod_cast h1
  have hfl : ⌊(100 : ℚ) * ((9384375723533272 : ℚ) / 1024 ^ 5)⌋ = 833 := by
    rw [Int.floor_eq_iff]
    constructor
    · norm_num
    · norm_num
  have hrhe : roundHalfEven ((100 : ℚ) * ((9384375723533272 : ℚ) / 1024 ^ 5)) = 834 := by
    unfold roundHalfEven
    rw [hfl]
    rw [if_neg (by norm_num), if_pos (by norm_num)]
    norm_num
  have hfmt : pyFormat2f ((9384375723533272 : ℚ) / 1024 ^ 5) = "8.34" := by
    simp only [pyFormat2f, hrhe]
    decide
  have hloop : convertLoop 4 (pyFloatOfInt (9384375723533271 : ℤ) / 1024) 1
      = ((9384375723533272 : ℚ) / 1024 ^ 5, 5) := by
    rw [hpfq]
    rw [convertLoop_step _ _ _ (by norm_num) (by norm_num)]
    rw [convertLoop_step _ _ _ (by norm_num) (by norm_num)]
    rw [convertLoop_step _ _ _ (by norm_num) (by norm_num)]
    rw [convertLoop_step _ _ _ (by norm_num) (by norm_num)]
    rw [convertLoop_stop _ _ _ (by simp)]
    rw [Prod.mk.injEq]
    exact ⟨by norm_num [div_div], by norm_num⟩
  simp only [convert_bytes, if_pos (by norm_num : (1024 : ℤ) ≤ 9384375723533271),
    hloop, hfmt]
  decide

/-- Witness for C4 at `value = 40` with the default thresholds 40 and 20:
the boundary value equal to the green threshold is wrapped in yellow. -/
theorem print_thresholds_dec_spec_witness :
    (print_thresholds_dec 40 40 20 = fg "yellow" ++ pyFormat2f 40 ++ "%" ++ attrReset) :=
  ((print_thresholds_dec_spec 40 40 20 (by norm_num)).2.1).mpr (by norm_num)

/- ### Status-classifier helpers of `VsanClusterCheck` (claim C10) -/

/-- `VsanClusterCheck.__color_cluster_status`.  The Python `else` branch is
`'unknown status: {}}'.format(value)`, where `}}` is an escaped literal
closing brace, so the message ends in a brace. -/
def color_cluster_status : Option String → String
  | none => "no status"
  | some v =>
      if v = "green" then print_green v
      else if v = "red" then print_red v
      else if v = "yellow" then print_yellow v
      else print_red ("unknown status: " ++ v ++ "\x7d")

/-- `VsanClusterCheck.__color_clomd_status`. -/
def color_clomd_status : Option String → String
  | none => "no status"
  | some v =>
      if v = "alive" then print_green v
      else if v = "abnormal" then print_red v
      else if v = "unknown" then print_yellow v
      else print_red ("unknown status: " ++ v ++ "\x7d")

/-- The green list of `__color_obj_health_status`. -/
def objHealthGreen : List String := ["datamove", "healthy"]

/-- The yellow list of `__color_obj_health_status`. -/
def objHealthYellow : List String :=
  ["nonavailabilityrelatedincompliance",
   "nonavailabilityrelatedincompliancewithpausedrebuild",
   "nonavailabilityrelatedincompliancewithpolicypending",
   "nonavailabilityrelatedreconfig",
   "reducedavailabilitywithactiverebuild",
   "reducedavailabilitywithnorebuild",
   "reducedavailabilitywithpolicypending",
   "reducedavailabilitywithnorebuilddelaytimer"]

/-- The red list of `__color_obj_health_status`.  The Python source is
missing a comma between the last two string literals, so they are
concatenated into a single (unmatchable) entry; we keep that verbatim. -/
def objHealthRed : List String :=
  ["inaccessible",
   "nonavailabilityrelatedincompliance",
   "reducedavailabilitywithpausedrebuild",
   "reducedavailabilitywithpolicypendingfailedVsanObjectHealthState_Unknown"]

/-- `VsanClusterCheck.__color_obj_health_status`.  Its `else` branch is
`'unknown status: {}]'.format(value)` (a bracket, not a brace). -/
def color_obj_health_status : Option String → String
  | none => "no status"
  | some v =>
      if v ∈ objHealthGreen then print_green v
      else if v ∈ objHealthYellow then print_yellow v
      else if v ∈ objHealthRed then print_red v
      else print_red ("unknown status: " ++ v ++ "]")

/-- `VsanClusterCheck.__color_obj_compliance_status`.  Note that
`notApplicable` is returned as-is, without any color wrapping. -/
def color_obj_compliance_status : Option String → String
  | none => "no status"
  | some v =>
      if v = "compliant" then print_green v
      else if v = "nonCompliant" then print_red v
      else if v = "notApplicable" then v
      else print_red ("unknown status: " ++ v ++ "\x7d")

/-- The spec-side shape of a fallback result: a red string that starts with
`unknown status: ` and contains the input. -/
def unknownStatusShape (result : String) (input : String) : Prop :=
  ∃ t, result = print_red t
    ∧ (∃ u, t = "unknown status: " ++ u)
    ∧ (∃ a b, t = a ++ input ++ b)

theorem unknownStatusShape_of_eq {result input : String} (tail : String)
    (h : result = print_red ("unknown status: " ++ input ++ tail)) :
    unknownStatusShape result input :=
  ⟨"unknown status: " ++ input ++ tail, h,
    ⟨input ++ tail, by rw [String.append_assoc]⟩,
    ⟨"unknown status: ", tail, rfl⟩⟩

/-- C10 (amended): each of the four status classifiers is total: `None`
yields the plain string `no status`; each recognized status yields that
value wrapped in its designated color — except `notApplicable` in the
compliance classifier, which the code returns unwrapped — and every other
string yields a red string beginning with `unknown status: ` and
containing the input.  (Totality holds because the listed cases cover
every possible input.) -/
theorem status_classifiers_spec (s : String) :
    color_cluster_status none = "no status"
    ∧ color_clomd_status none = "no status"
    ∧ color_obj_health_status none = "no status"
    ∧ color_obj_compliance_status none = "no status"
    ∧ color_cluster_status (some "green") = print_green "green"
    ∧ color_cluster_status (some "red") = print_red "red"
    ∧ color_cluster_status (some "yellow") = print_yellow "yellow"
    ∧ color_clomd_status (some "alive") = print_green "alive"
    ∧ color_clomd_status (some "abnormal") = print_red "abnormal"
    ∧ color_clomd_status (some "unknown") = print_yellow "unknown"
    ∧ color_obj_compliance_status (some "compliant") = print_green "compliant"
    ∧ color_obj_compliance_status (some "nonCompliant") = print_red "nonCompliant"
    ∧ color_obj_compliance_status (some "notApplicable") = "notApplicable"
    ∧ (s ∈ objHealthGreen → color_obj_health_status (some s) = print_green s)
    ∧ (s ∉ objHealthGreen ∧ s ∈ objHealthYellow →
        color_obj_health_status (some s) = print_yellow s)
    ∧ (s ∉ objHealthGreen ∧ s ∉ objHealthYellow ∧ s ∈ objHealthRed →
        color_obj_health_status (some s) = print_red s)
    ∧ (s ∉ ["green", "red", "yellow"] →
        unknownStatusShape (color_cluster_status (some s)) s)
    ∧ (s ∉ ["alive", "abnormal", "unknown"] →
        unknownStatusShape (color_clomd_status (some s)) s)
    ∧ (s ∉ objHealthGreen ∧ s ∉ objHealthYellow ∧ s ∉ objHealthRed →
        unknownStatusShape (color_obj_health_status (some s)) s)
    ∧ (s ∉ ["compliant", "nonCompliant", "notApplicable"] →
        unknownStatusShape (color_obj_compliance_status (some s)) s) := by
  refine ⟨rfl, rfl, rfl, rfl, rfl, rfl, rfl, rfl, rfl, rfl, rfl, rfl, rfl,
    ?_, ?_, ?_, ?_, ?_, ?_, ?_⟩
  · intro hg
    simp [color_obj_health_status, hg]
  · rintro ⟨hg, hy⟩
    simp [color_obj_health_status, hg, hy]
  · rintro ⟨hg, hy, hr⟩
    simp [color_obj_health_status, hg, hy, hr]
  · intro hmem
    simp only [List.mem_cons, List.not_mem_nil, or_false, not_or] at hmem
    obtain ⟨h1, h2, h3⟩ := hmem
    exact unknownStatusShape_of_eq "\x7d"
      (by simp [color_cluster_status, h1, h2, h3])
  · intro hmem
    simp only [List.mem_cons, List.not_mem_nil, or_false, not_or] at hmem
    obtain ⟨h1, h2, h3⟩ := hmem
    exact unknownStatusShape_of_eq "\x7d"
      (by simp [color_clomd_status, h1, h2, h3])
  · rintro ⟨hg, hy, hr⟩
    exact unknownStatusShape_of_eq "]"
      (by simp [color_obj_health_status, hg, hy, hr])
  · intro hmem
    simp only [List.mem_cons, List.not_mem_nil, or_false, not_or] at hmem
    obtain ⟨h1, h2, h3⟩ := hmem
    exact unknownStatusShape_of_eq "\x7d"
      (by simp [color_obj_compliance_status, h1, h2, h3])

/-- Witness for C10: a recognized value of each kind and an unrecognized
value both behave as the theorem states. -/
theorem status_classifiers_spec_witness :
    color_obj_health_status (some "healthy") = print_green "healthy"
    ∧ color_obj_health_status (some "nonavailabilityrelatedincompliance")
        = print_yellow "nonavailabilityrelatedincompliance"
    ∧ color_obj_health_status (some "inaccessible") = print_red "inaccessible"
    ∧ unknownStatusShape (color_cluster_status (some "bogus")) "bogus"
    ∧ unknownStatusShape (color_clomd_status (some "bogus")) "bogus"
    ∧ unknownStatusShape (color_obj_health_status (some "bogus")) "bogus"
    ∧ unknownStatusShape (color_obj_compliance_status (some "bogus")) "bogus" := by
  have hh := status_classifiers_spec "healthy"
  have hy := status_classifiers_spec "nonavailabilityrelatedincompliance"
  have hi := status_classifiers_spec "inaccessible"
  have hb := status_classifiers_spec "bogus"
  exact ⟨hh.2.2.2.2.2.2.2.2.2.2.2.2.2.1 (by decide),
    hy.2.2.2.2.2.2.2.2.2.2.2.2.2.2.1 (by decide),
    hi.2.2.2.2.2.2.2.2.2.2.2.2.2.2.2.1 (by decide),
    hb.2.2.2.2.2.2.2.2.2.2.2.2.2.2.2.2.1 (by decide),
    hb.2.2.2.2.2.2.2.2.2.2.2.2.2.2.2.2.2.1 (by decide),
    hb.2.2.2.2.2.2.2.2.2.2.2.2.2.2.2.2.2.2.1 (by decide),
    hb.2.2.2.2.2.2.2.2.2.2.2.2.2.2.2.2.2.2.2 (by decide)⟩

/-- Counterexample to C10 as stated: the recognized compliance status
`notApplicable` is returned as a plain string, not wrapped in any of the
three colors. -/
theorem compliance_notApplicable_counterexample :
    color_obj_compliance_status (some "notApplicable") = "notApplicable"
    ∧ color_obj_compliance_status (some "notApplicable") ≠ print_green "notApplicable"
    ∧ color_obj_compliance_status (some "notApplicable") ≠ print_yellow "notApplicable"
    ∧ color_obj_compliance_status (some "notApplicable") ≠ print_red "notApplicable" := by
  refine ⟨rfl, ?_, ?_, ?_⟩ <;> decide

/- ### `___truncate_vm_name` (claim C7) -/

/-- Python slice `value[0:stop]` of a string (as a char list), for an
integer `stop`; a negative `stop` counts from the end. -/
def pySlice0 (l : List Char) (stop : ℤ) : List Char :=
  if stop < 0 then l.take (l.length - stop.natAbs) else l.take stop.toNat

/-- `VsanClusterCheck.___truncate_vm_name` (the triple-underscored Python
classmethod), acting on the string's characters. -/
def truncate_vm_name (value : List Char) (length : ℤ) : List Char :=
  if (value.length : ℤ) ≤ length then value
  else pySlice0 value (length - 3) ++ ['.', '.', '.']

/-- C7: for `length ≥ 3`, `___truncate_vm_name` returns the value itself
when it is at most `length` characters long and otherwise its first
`length - 3` characters followed by `...`; the result is at most `length`
characters long, and the part before any appended `...` is a prefix of the
value. -/
theorem truncate_vm_name_spec (value : List Char) (length : ℤ) (h : 3 ≤ length) :
    ((value.length : ℤ) ≤ length → truncate_vm_name value length = value)
    ∧ (length < (value.length : ℤ) →
        truncate_vm_name value length
          = value.take (length - 3).toNat ++ ['.', '.', '.'])
    ∧ ((truncate_vm_name value length).length : ℤ) ≤ length
    ∧ (∃ t, value = value.take (length - 3).toNat ++ t) := by
  have hslice : pySlice0 value (length - 3) = value.take (length - 3).toNat := by
    unfold pySlice0
    rw [if_neg (by omega)]
  refine ⟨?_, ?_, ?_, ?_⟩
  · intro hle
    simp [truncate_vm_name, if_pos hle]
  · intro hlt
    rw [truncate_vm_name, if_neg (not_le.mpr hlt), hslice]
  · by_cases hle : (value.length : ℤ) ≤ length
    · simpa [truncate_vm_name, if_pos hle] using hle
    · have hlt := not_le.mp hle
      rw [truncate_vm_name, if_neg hle, hslice]
      rw [List.length_append, List.length_take]
      have h1 : (length - 3).toNat ≤ value.length := by omega
      rw [min_eq_left h1]
      simp only [List.length_cons, List.length_nil]
      omega
  · exact ⟨value.drop (length - 3).toNat, (List.take_append_drop _ _).symm⟩

/-- Witness for C7: an 8-character name truncated to length 5 keeps its
first 2 characters, gains `...`, and has length 5. -/
theorem truncate_vm_name_spec_witness :
    truncate_vm_name "abcdefgh".data 5 = "ab...".data
    ∧ ((truncate_vm_name "abcdefgh".data 5).length : ℤ) ≤ 5 := by
  have h := truncate_vm_name_spec "abcdefgh".data 5 (by norm_num)
  refine ⟨?_, h.2.2.1⟩
  rw [h.2.1 (by decide)]
  decide

/- ### Remote data model (fields the tool reads), `libs/vsanclustercheck.py` -/

/-- `si.content.about` as used by the tool. -/
structure AboutInfo where
  apiVersion : String
  apiType : String
deriving DecidableEq

/-- The `VsanClusterCheck` instance fields set by `__init__`.  Handles to
remote managed objects (`ssl_context`, `si`, `si_stub`,
`cluster_instance`, `vc_mos`) are modeled as opaque numeric identifiers:
the tool only stores and passes them along. -/
structure VsanClusterCheckState where
  host_name : String
  ssl_context : ℕ
  cluster_name : String
  si : ℕ
  si_stub : ℕ
  about_info : AboutInfo
  api_version : String
  cluster_instance : ℕ
  vc_mos : ℕ
deriving DecidableEq

/-- A raised Python exception. -/
inductive PyError where
  | valueError (msg : String)
  | zeroDivisionError (site : String)
deriving DecidableEq

/-- Python `a / b` on numbers: raises `ZeroDivisionError` when `b = 0`.
The `site` label records which source expression performed the division
(in Python the traceback carries the same information). -/
def pydiv (site : String) (a b : ℚ) : Except PyError ℚ :=
  if b = 0 then .error (.zeroDivisionError site) else .ok (a / b)

/-- Python `sorted(xs, key=attrgetter(f))` for a string-valued key.  Python
compares strings code point by code point, which is exactly the order on
the key's `List Char`.  (Python's sort is a stable mergesort; for the
sortedness statements proved here any correct sort is an equivalent
model.) -/
def pySorted {α : Type} (key : α → List Char) (l : List α) : List α :=
  List.insertionSort (fun a b => key a ≤ key b) l

/-- `pySorted` output is nondecreasing in the key. -/
theorem pySorted_sorted {α : Type} (key : α → List Char) (l : List α) :
    List.Sorted (fun a b => key a ≤ key b) (pySorted key l) := by
  haveI : IsTotal α (fun a b => key a ≤ key b) := ⟨fun a b => le_total (key a) (key b)⟩
  haveI : IsTrans α (fun a b => key a ≤ key b) := ⟨fun a b c hab hbc => le_trans hab hbc⟩
  exact List.sorted_insertionSort _ l

/-- `vim.cluster.VsanObjectSpaceSummary` (the fields the tool prints). -/
structure VsanObjectSpaceSummary where
  objType : String
  usedB : ℤ
  reservedCapacityB : ℤ
  overheadB : ℤ
  overReservedB : ℤ

/-- `spaceDetail` of `VsanSpaceUsage`. -/
structure VsanSpaceDetail where
  spaceUsageByObjectType : List VsanObjectSpaceSummary

/-- `vim.vsan.DataEfficiencyCapacityState` (the fields the tool reads). -/
structure DataEfficiencyCapacityState where
  dedupMetadataSize : ℤ
  logicalCapacity : ℤ
  logicalCapacityUsed : ℤ
  physicalCapacity : ℤ
  physicalCapacityUsed : ℤ

/-- `vim.cluster.VsanSpaceUsage` (the fields the tool reads).  A falsy
`efficientCapacity` is `none`. -/
structure VsanSpaceUsage where
  totalCapacityB : ℤ
  freeCapacityB : ℤ
  uncommittedB : ℤ
  efficientCapacity : Option DataEfficiencyCapacityState
  spaceDetail : VsanSpaceDetail

/-- The print order of the per-object-type space usage details in
`get_cluster_vsan_capacity`: `sorted(..., key=attrgetter('objType'))`. -/
def capacity_sorted_details (d : VsanSpaceUsage) : List VsanObjectSpaceSummary :=
  pySorted (fun o => o.objType.data) d.spaceDetail.spaceUsageByObjectType

/-- `VsanClusterCheck.get_cluster_vsan_capacity`, lines 204-261: computes
the capacity percentages (each Python `/` may raise `ZeroDivisionError`)
and returns the printed lines.  The remote call result `capacity_data` is
an input; the state is only read. -/
def get_cluster_vsan_capacity (st : VsanClusterCheckState)
    (capacity_data : VsanSpaceUsage) : Except PyError (List String) :=
  let capacity_total := capacity_data.totalCapacityB
  let capacity_free := capacity_data.freeCapacityB
  match pydiv "capacity_free_pct" (capacity_free : ℚ) (capacity_total : ℚ) with
  | .error e => .error e
  | .ok q1 =>
    let capacity_free_pct := q1 * 100
    let capacity_used := capacity_total - capacity_free
    match pydiv "capacity_used_pct" (capacity_used : ℚ) (capacity_total : ℚ) with
    | .error e => .error e
    | .ok q2 =>
      let capacity_used_pct := q2 * 100
      let capacity_committed := capacity_data.uncommittedB
      match pydiv "capacity_committed_pct" (capacity_committed : ℚ) (capacity_total : ℚ) with
      | .error e => .error e
      | .ok q3 =>
        let capacity_committed_pct := q3 * 100
        let header :=
          [pyPrint ["\nvSAN capacity on host " ++ st.host_name ++ "\n",
                    " Cluster: " ++ st.cluster_name ++ "\n"],
           pyPrint ["Summary\n",
                    " Total Capacity:     " ++ rjust (convert_bytes capacity_total) 10 ++ "\n",
                    " Free Capacity:      " ++ rjust (convert_bytes capacity_free) 10
                      ++ " (" ++ print_thresholds_dec capacity_free_pct 40 20 ++ ")\n",
                    " Used Capacity:      " ++ rjust (convert_bytes capacity_used) 10
                      ++ " (" ++ print_thresholds_inc capacity_used_pct 60 80 ++ ")\n",
                    " Committed Capacity: " ++ rjust (convert_bytes capacity_committed) 10
                      ++ " (" ++ print_thresholds_inc capacity_committed_pct 60 80 ++ ")\n"]]
        let details :=
          ["Space usage details"]
          ++ (capacity_sorted_details capacity_data).map (fun obj =>
               pyPrint ["  Type: " ++ ljust obj.objType 19,
                        "Used: " ++ rjust (convert_bytes obj.usedB) 10,
                        "Reserved: " ++ rjust (convert_bytes obj.reservedCapacityB) 10,
                        "Overhead: " ++ rjust (convert_bytes obj.overheadB) 10,
                        "Thick: " ++ rjust (convert_bytes obj.overReservedB) 10])
        match capacity_data.efficientCapacity with
        | none => .ok (header ++ ["Data Efficiency: Not Enabled\n"] ++ details)
        | some ec =>
          match pydiv "efficiency_logical_used_pct"
              (ec.logicalCapacityUsed : ℚ) (ec.logicalCapacity : ℚ) with
          | .error e => .error e
          | .ok q4 =>
            let efficiency_logical_used_pct := q4 * 100
            match pydiv "efficiency_physical_used_pct"
                (ec.physicalCapacityUsed : ℚ) (ec.physicalCapacity : ℚ) with
            | .error e => .error e
            | .ok q5 =>
              let efficiency_physical_used_pct := q5 * 100
              .ok (header
                ++ [pyPrint ["Data Efficiency: Enabled\n",
                      " Metadata size: " ++ rjust (convert_bytes ec.dedupMetadataSize) 10 ++ "\n",
                      " Logical size:  " ++ rjust (convert_bytes ec.logicalCapacity) 10 ++ "\n",
                      " Logical used:  " ++ rjust (convert_bytes ec.logicalCapacityUsed) 10
                        ++ " (" ++ print_thresholds_inc efficiency_logical_used_pct 60 80 ++ ")\n",
                      " Physical size: " ++ rjust (convert_bytes ec.physicalCapacity) 10 ++ "\n",
                      " Physical used: " ++ rjust (convert_bytes ec.physicalCapacityUsed) 10
                        ++ " (" ++ print_thresholds_inc efficiency_physical_used_pct 60 80 ++ ")\n"]]
                ++ details)

/-- C1: every percentage in `get_cluster_vsan_capacity` divides by a
snapshot total with no local zero-check.  When `totalCapacityB ≠ 0` (and,
if `efficientCapacity` is present, `logicalCapacity ≠ 0` and
`physicalCapacity ≠ 0`) every division is defined and no
division-by-zero error occurs; when `totalCapacityB = 0` the operation
fails at the first percentage computation (`capacity_free_pct`). -/
theorem get_cluster_vsan_capacity_division_safety (st : VsanClusterCheckState)
    (d : VsanSpaceUsage) :
    (d.totalCapacityB ≠ 0
        ∧ (∀ ec, d.efficientCapacity = some ec →
            ec.logicalCapacity ≠ 0 ∧ ec.physicalCapacity ≠ 0) →
      ∃ out, get_cluster_vsan_capacity st d = .ok out)
    ∧ (d.totalCapacityB = 0 →
        get_cluster_vsan_capacity st d
          = .error (.zeroDivisionError "capacity_free_pct")) := by
  constructor
  · rintro ⟨ht, hec⟩
    have ht' : ((d.totalCapacityB : ℚ)) ≠ 0 := Int.cast_ne_zero.mpr ht
    rcases hE : d.efficientCapacity with _ | ec
    · exact ⟨_, by simp [get_cluster_vsan_capacity, pydiv, ht', hE]; rfl⟩
    · obtain ⟨hl, hp⟩ := hec ec hE
      have hl' : ((ec.logicalCapacity : ℚ)) ≠ 0 := Int.cast_ne_zero.mpr hl
      have hp' : ((ec.physicalCapacity : ℚ)) ≠ 0 := Int.cast_ne_zero.mpr hp
      exact ⟨_, by simp [get_cluster_vsan_capacity, pydiv, ht', hl', hp', hE]; rfl⟩
  · intro ht
    simp [get_cluster_vsan_capacity, pydiv, ht]

/-- Witness for C1: a snapshot with nonzero totals succeeds, and a snapshot
with `totalCapacityB = 0` fails at the first percentage computation. -/
theorem get_cluster_vsan_capacity_division_safety_witness :
    (∃ out,
      get_cluster_vsan_capacity
        ⟨"vc.local", 0, "VSAN-Cluster", 1, 2, ⟨"6.7.3", "VirtualCenter"⟩, "vsan67", 3, 4⟩
        ⟨4096, 1024, 512, none, ⟨[]⟩⟩ = .ok out)
    ∧ get_cluster_vsan_capacity
        ⟨"vc.local", 0, "VSAN-Cluster", 1, 2, ⟨"6.7.3", "VirtualCenter"⟩, "vsan67", 3, 4⟩
        ⟨0, 1024, 512, none, ⟨[]⟩⟩
        = .error (.zeroDivisionError "capacity_free_pct") :=
  ⟨(get_cluster_vsan_capacity_division_safety _ _).1
      ⟨by decide, by intro ec h; simp at h⟩,
    (get_cluster_vsan_capacity_division_safety _ _).2 rfl⟩

/- ### `get_health_status` data model and print order -/

/-- An element of `clusterStatus.trackedHostsStatus`. -/
structure TrackedHostStatus where
  hostname : String
  status : Option String

/-- `healthData.clusterStatus` (the fields the tool reads). -/
structure ClusterStatusInfo where
  status : Option String
  trackedHostsStatus : List TrackedHostStatus

/-- An element of `clomdLiveness.clomdLivenessResult`. -/
structure ClomdHostResult where
  hostname : String
  clomdStat : Option String

/-- `healthData.clomdLiveness` (the fields the tool reads). -/
structure ClomdLivenessInfo where
  issueFound : Option Bool
  clomdLivenessResult : List ClomdHostResult

/-- An element of `diskBalance.disks`
(`vim.cluster.VsanClusterBalancePerDiskInfo`). -/
structure BalancePerDiskInfo where
  uuid : String
  fullness : ℤ
  variance : ℤ

/-- `healthData.diskBalance` (the fields the tool reads). -/
structure DiskBalanceInfo where
  disks : List BalancePerDiskInfo

/-- `healthData.perfsvcHealth` (the fields the tool reads). -/
structure PerfsvcHealthInfo where
  enoughFreeSpace : Option Bool
  statsObjectConsistent : Option Bool
  verboseModeStatus : Option Bool

/-- `vim.cluster.VsanClusterHealthSummary` as consumed by
`get_health_status`; absent (falsy) sections are `none`. -/
structure VsanClusterHealthSummary where
  timestamp : String
  clusterStatus : Option ClusterStatusInfo
  clomdLiveness : Option ClomdLivenessInfo
  diskBalance : Option DiskBalanceInfo
  perfsvcHealth : Option PerfsvcHealthInfo

/-- Print order of the tracked host statuses in `get_health_status`:
`sorted(..., key=attrgetter('hostname'))`. -/
def health_sorted_tracked (cs : ClusterStatusInfo) : List TrackedHostStatus :=
  pySorted (fun h => h.hostname.data) cs.trackedHostsStatus

/-- Print order of the CLOMD liveness results in `get_health_status`. -/
def health_sorted_clomd (cl : ClomdLivenessInfo) : List ClomdHostResult :=
  pySorted (fun h => h.hostname.data) cl.clomdLivenessResult

/-- Print order of the disk balance entries in `get_health_status`:
`sorted(..., key=attrgetter('uuid'))`. -/
def health_sorted_disks (db : DiskBalanceInfo) : List BalancePerDiskInfo :=
  pySorted (fun d => d.uuid.data) db.disks

/-- `VsanClusterCheck.get_health_status`, lines 284-330: the printed lines.
The remote call result `health_data` is an input; the state is only
read. -/
def get_health_status (st : VsanClusterCheckState) (fetch_from_cache : Bool)
    (health_data : VsanClusterHealthSummary) : List String :=
  [pyPrint ["\nvSAN health status on host " ++ st.host_name ++ "\n",
            " Cluster: " ++ st.cluster_name ++ "\n",
            " Using cached data?: " ++ (if fetch_from_cache then "Yes" else "No") ++ "\n",
            " Timestamp: " ++ health_data.timestamp]]
  ++ (match health_data.clusterStatus with
      | none => []
      | some cluster_status =>
        ("\nCluster: " ++ ljust st.cluster_name 31 ++ " Status: "
            ++ color_cluster_status cluster_status.status ++ "\n\nHosts")
        :: (health_sorted_tracked cluster_status).map (fun host_status =>
             "  Host: " ++ ljust host_status.hostname 32 ++ " Status: "
               ++ color_cluster_status host_status.status))
  ++ (match health_data.clomdLiveness with
      | none => []
      | some clomd_liveness =>
        ("\nCLOMD Liveness Issues: " ++ print_no_yes clomd_liveness.issueFound)
        :: (health_sorted_clomd clomd_liveness).map (fun host =>
             "  Host: " ++ ljust host.hostname 32 ++ " Status: "
               ++ color_clomd_status host.clomdStat))
  ++ (match health_data.diskBalance with
      | none => []
      | some disk_balance =>
        "\nDisk Balance"
        :: (health_sorted_disks disk_balance).map (fun disk =>
             "  UUID: " ++ ljust (ljust disk.uuid 37) 37
               ++ " Usage: " ++ rjust (toString disk.fullness) 3
               ++ "% Variance " ++ rjust (toString disk.variance) 3 ++ "%"))
  ++ (match health_data.perfsvcHealth with
      | none => []
      | some perf =>
        [pyPrint ["\nPerformance Service\n",
                  "  Enough Free Space: " ++ print_yes_no perf.enoughFreeSpace ++ "\n",
                  "  Stats Objects Consistent: " ++ print_yes_no perf.statsObjectConsistent ++ "\n",
                  "  Verbose Mode: " ++ print_no_yes perf.verboseModeStatus]])

/- ### `get_cluster_hcl_info` data model and print order -/

/-- An element of `hclInfo.hostResults[i].controllers` (the fields the tool
prints). -/
structure HclControllerInfo where
  deviceName : String
  deviceDisplayName : String
  usedByVsan : Option Bool
  deviceOnHcl : Option Bool
  driverName : String
  driverVersion : String
  driverVersionSupported : Option Bool
  driverVersionsOnHcl : List String
  fwVersion : String
  fwVersionSupported : Option Bool
  fwVersionOnHcl : List String
  toolName : String
  toolVersion : String

/-- An element of `hclInfo.hostResults`. -/
structure HclHostResult where
  hostname : String
  releaseName : String
  controllers : List HclControllerInfo

/-- `vim.cluster.VsanClusterHclInfo` (the fields the tool reads). -/
structure VsanClusterHclInfo where
  hclDbAgeHealth : String
  hclDbLastUpdate : String
  hostResults : List HclHostResult

/-- The health summary as consumed by `get_cluster_hcl_info`
(`fields=['timestamp', 'hclInfo']`). -/
structure VsanHclHealthSummary where
  timestamp : String
  hclInfo : VsanClusterHclInfo

/-- Print order of the host results in `get_cluster_hcl_info`:
`sorted(..., key=attrgetter('hostname'))`. -/
def hcl_sorted_hosts (info : VsanClusterHclInfo) : List HclHostResult :=
  pySorted (fun h => h.hostname.data) info.hostResults

/-- Print order of the controllers of one host in `get_cluster_hcl_info`:
the loop `for device in host.controllers` walks them in input order,
without sorting. -/
def hcl_controller_print_order (host : HclHostResult) : List HclControllerInfo :=
  host.controllers

/-- The single `print` call for one controller in `get_cluster_hcl_info`.
The repeated `fwVersionSupported` / `fwVersionOnHcl` under the tool
section is in the source (lines 377-378). -/
def hcl_device_lines (device : HclControllerInfo) : String :=
  pyPrint ["  Device:          " ++ device.deviceName ++ "\n",
           "   Name:           " ++ device.deviceDisplayName ++ "\n",
           "   Used by vSAN:   " ++ pyStrOptBool device.usedByVsan ++ "\n",
           "   Supported?:     " ++ print_yes_no device.deviceOnHcl ++ "\n",
           "   Driver:         " ++ device.driverName ++ "\n",
           "     Version:      " ++ device.driverVersion ++ "\n",
           "     Supported?:   " ++ print_yes_no device.driverVersionSupported ++ "\n",
           "     HCL versions: " ++ String.intercalate ", " device.driverVersionsOnHcl ++ "\n",
           "   Firmware\n",
           "     Version:      " ++ device.fwVersion ++ "\n",
           "     Supported?:   " ++ print_yes_no device.fwVersionSupported ++ "\n",
           "     HCL versions: " ++ String.intercalate ", " device.fwVersionOnHcl ++ "\n",
           "   Tool:           " ++ device.toolName ++ "\n",
           "     Version:      " ++ device.toolVersion ++ "\n",
           "     Supported?:   " ++ print_yes_no device.fwVersionSupported ++ "\n",
           "     HCL versions: " ++ String.intercalate ", " device.fwVersionOnHcl]

/-- The lines printed for one host in `get_cluster_hcl_info`. -/
def hcl_host_lines (host : HclHostResult) : List String :=
  ("\nChecking Host " ++ host.hostname ++ " (" ++ host.releaseName ++ ")")
  :: "Controllers"
  :: (hcl_controller_print_order host).map hcl_device_lines

/-- `VsanClusterCheck.get_cluster_hcl_info`, lines 342-378: the printed
lines.  The remote call result `health_data` is an input; the state is
only read. -/
def get_cluster_hcl_info (st : VsanClusterCheckState) (fetch_from_cache : Bool)
    (health_data : VsanHclHealthSummary) : List String :=
  let hcl_info := health_data.hclInfo
  [pyPrint ["\nvSAN HCL status on host " ++ st.host_name ++ "\n",
            " Cluster: " ++ st.cluster_name ++ "\n",
            " Using cached data?: " ++ (if fetch_from_cache then "Yes" else "No") ++ "\n",
            " Timestamp: " ++ health_data.timestamp ++ "\n",
            " HCL DB Age: " ++ hcl_info.hclDbAgeHealth
              ++ " (updated " ++ hcl_info.hclDbLastUpdate ++ ")"]]
  ++ ((hcl_sorted_hosts hcl_info).map hcl_host_lines).flatten

/-- C6 (amended): every list the three reporting functions pass through
`sorted()` is printed in nondecreasing key order: tracked host statuses
and CLOMD results by hostname, disk balance entries by uuid, space usage
details by objType, HCL host results by hostname.  (The claim's opening
universal — *every* walked list — fails for the per-host `controllers`
list of `get_cluster_hcl_info`, which is printed in input order; see the
counterexample.) -/
theorem printed_lists_sorted :
    (∀ cs : ClusterStatusInfo,
      List.Sorted (fun a b : TrackedHostStatus => a.hostname.data ≤ b.hostname.data)
        (health_sorted_tracked cs))
    ∧ (∀ cl : ClomdLivenessInfo,
        List.Sorted (fun a b : ClomdHostResult => a.hostname.data ≤ b.hostname.data)
          (health_sorted_clomd cl))
    ∧ (∀ db : DiskBalanceInfo,
        List.Sorted (fun a b : BalancePerDiskInfo => a.uuid.data ≤ b.uuid.data)
          (health_sorted_disks db))
    ∧ (∀ d : VsanSpaceUsage,
        List.Sorted (fun a b : VsanObjectSpaceSummary => a.objType.data ≤ b.objType.data)
          (capacity_sorted_details d))
    ∧ (∀ info : VsanClusterHclInfo,
        List.Sorted (fun a b : HclHostResult => a.hostname.data ≤ b.hostname.data)
          (hcl_sorted_hosts info)) :=
  ⟨fun _ => pySorted_sorted _ _, fun _ => pySorted_sorted _ _,
   fun _ => pySorted_sorted _ _, fun _ => pySorted_sorted _ _,
   fun _ => pySorted_sorted _ _⟩

/-- Counterexample to C6 as stated: not every list walked from a returned
object graph is printed in sorted order — `get_cluster_hcl_info` prints a
host's `controllers` in input order, here `vmhba1` before `vmhba0`. -/
theorem hcl_controllers_not_sorted_counterexample :
    ¬ List.Sorted (fun a b : HclControllerInfo => a.deviceName.data ≤ b.deviceName.data)
      (hcl_controller_print_order
        ⟨"host-1", "ESXi 6.7",
         [⟨"vmhba1", "Ctrl B", some true, some true, "drv", "1.0", some true, [],
           "fw1", some true, [], "tool", "1.0"⟩,
          ⟨"vmhba0", "Ctrl A", some true, some true, "drv", "1.0", some true, [],
           "fw1", some true, [], "tool", "1.0"⟩]⟩) := by
  intro h
  have := List.rel_of_sorted_cons h _ (List.mem_cons_self _ _)
  revert this
  decide

/- ### Claim C8: the reporting methods do not mutate the object -/

/-- `get_cluster_vsan_capacity` as a method call: the pair of the object
state after the call and the call's result.  The method body contains no
assignment to `self`, so the post-call state is the entry state. -/
def get_cluster_vsan_capacity_method (st : VsanClusterCheckState)
    (d : VsanSpaceUsage) : VsanClusterCheckState × Except PyError (List String) :=
  (st, get_cluster_vsan_capacity st d)

/-- `get_health_status` as a method call (no assignment to `self`). -/
def get_health_status_method (st : VsanClusterCheckState) (fetch : Bool)
    (hd : VsanClusterHealthSummary) : VsanClusterCheckState × List String :=
  (st, get_health_status st fetch hd)

/-- `get_cluster_hcl_info` as a method call (no assignment to `self`). -/
def get_cluster_hcl_info_method (st : VsanClusterCheckState) (fetch : Bool)
    (hd : VsanHclHealthSummary) : VsanClusterCheckState × List String :=
  (st, get_cluster_hcl_info st fetch hd)

/-- C8: after any call of `get_cluster_vsan_capacity`, `get_health_status`
or `get_cluster_hcl_info`, every instance field equals its value before
the call. -/
theorem reporting_methods_stateless (st : VsanClusterCheckState)
    (d : VsanSpaceUsage) (f₁ f₂ : Bool) (hd : VsanClusterHealthSummary)
    (hh : VsanHclHealthSummary) :
    ((get_cluster_vsan_capacity_method st d).1.host_name = st.host_name
      ∧ (get_cluster_vsan_capacity_method st d).1.ssl_context = st.ssl_context
      ∧ (get_cluster_vsan_capacity_method st d).1.cluster_name = st.cluster_name
      ∧ (get_cluster_vsan_capacity_method st d).1.si = st.si
      ∧ (get_cluster_vsan_capacity_method st d).1.si_stub = st.si_stub
      ∧ (get_cluster_vsan_capacity_method st d).1.about_info = st.about_info
      ∧ (get_cluster_vsan_capacity_method st d).1.api_version = st.api_version
      ∧ (get_cluster_vsan_capacity_method st d).1.cluster_instance = st.cluster_instance
      ∧ (get_cluster_vsan_capacity_method st d).1.vc_mos = st.vc_mos)
    ∧ ((get_health_status_method st f₁ hd).1.host_name = st.host_name
      ∧ (get_health_status_method st f₁ hd).1.ssl_context = st.ssl_context
      ∧ (get_health_status_method st f₁ hd).1.cluster_name = st.cluster_name
      ∧ (get_health_status_method st f₁ hd).1.si = st.si
      ∧ (get_health_status_method st f₁ hd).1.si_stub = st.si_stub
      ∧ (get_health_status_method st f₁ hd).1.about_info = st.about_info
      ∧ (get_health_status_method st f₁ hd).1.api_version = st.api_version
      ∧ (get_health_status_method st f₁ hd).1.cluster_instance = st.cluster_instance
      ∧ (get_health_status_method st f₁ hd).1.vc_mos = st.vc_mos)
    ∧ ((get_cluster_hcl_info_method st f₂ hh).1.host_name = st.host_name
      ∧ (get_cluster_hcl_info_method st f₂ hh).1.ssl_context = st.ssl_context
      ∧ (get_cluster_hcl_info_method st f₂ hh).1.cluster_name = st.cluster_name
      ∧ (get_cluster_hcl_info_method st f₂ hh).1.si = st.si
      ∧ (get_cluster_hcl_info_method st f₂ hh).1.si_stub = st.si_stub
      ∧ (get_cluster_hcl_info_method st f₂ hh).1.about_info = st.about_info
      ∧ (get_cluster_hcl_info_method st f₂ hh).1.api_version = st.api_version
      ∧ (get_cluster_hcl_info_method st f₂ hh).1.cluster_instance = st.cluster_instance
      ∧ (get_cluster_hcl_info_method st f₂ hh).1.vc_mos = st.vc_mos) :=
  ⟨⟨rfl, rfl, rfl, rfl, rfl, rfl, rfl, rfl, rfl⟩,
   ⟨rfl, rfl, rfl, rfl, rfl, rfl, rfl, rfl, rfl⟩,
   ⟨rfl, rfl, rfl, rfl, rfl, rfl, rfl, rfl, rfl⟩⟩

/- ### `VsanClusterCheck.__init__` (claim C5) -/

/-- The remote endpoint's observable behaviour during construction:
everything `__init__` obtains from outside the process.  `connectResult`
is the `SmartConnect` handle (`none` when falsy), `findChildResults` the
per-datacenter result of `searchIndex.FindChild(datacenter.hostFolder,
cluster_name)`. -/
structure VsanConnectEnv where
  connectResult : Option ℕ
  stub : ℕ
  aboutInfo : AboutInfo
  vmodlVersion : String
  findChildResults : List (Option ℕ)
  vcMos : ℕ

/-- Digit parsing for Python `int()`: all characters must be digits. -/
def digitsToNat? (cs : List Char) : Option ℕ :=
  if cs = [] then none
  else if cs.all (fun c => c.isDigit) then
    some (cs.foldl (fun acc c => 10 * acc + (c.toNat - 48)) 0)
  else none

/-- Python `int(s)` on the characters of a string: an optional sign
followed by digits; anything else raises `ValueError` (modeled as
`none`). -/
def pyInt? : List Char → Option ℤ
  | '-' :: rest => (digitsToNat? rest).map (fun n => -(n : ℤ))
  | '+' :: rest => (digitsToNat? rest).map (fun n => (n : ℤ))
  | s => (digitsToNat? s).map (fun n => (n : ℤ))

/-- The `[0]` component of Python `split('.')`: the characters before the
first dot. -/
def splitDotHead (s : List Char) : List Char :=
  s.takeWhile (fun c => c != '.')

/-- `VsanClusterCheck.__get_cluster_instance`: walk the datacenters and
return the first `FindChild` hit, else `None`. -/
def get_cluster_instance (env : VsanConnectEnv) : Option ℕ :=
  env.findChildResults.findSome? id

/-- `VsanClusterCheck.__init__`, lines 38-84: connect, then require a
truthy handle, a major API version of at least 6, a VirtualCenter
endpoint and a resolvable cluster, raising `ValueError` otherwise.  Note
the source formats `self.cluster_instance` (which is `None` at that
point) into the cluster-not-found message. -/
def VsanClusterCheck_init (host user password : String) (port : ℕ)
    (cluster : String) (context : ℕ) (env : VsanConnectEnv) :
    Except PyError VsanClusterCheckState :=
  match env.connectResult with
  | none => .error (.valueError
      "Could not connect to the specified host using specified username and password")
  | some si =>
    match pyInt? (splitDotHead env.aboutInfo.apiVersion.data) with
    | none => .error (.valueError "invalid literal for int() with base 10")
    | some major =>
      if major < 6 then
        .error (.valueError ("Host version " ++ env.aboutInfo.apiVersion
          ++ " (lower than 6.0) is not supported."))
      else if env.aboutInfo.apiType ≠ "VirtualCenter" then
        .error (.valueError ("Host " ++ host ++ " is not a VirtualCenter."))
      else
        match get_cluster_instance env with
        | none => .error (.valueError ("Cluster None is not found for " ++ host ++ "."))
        | some ci =>
          .ok ⟨host, context, cluster, si, env.stub, env.aboutInfo,
               env.vmodlVersion, ci, env.vcMos⟩

/-- C5: construction succeeds exactly when a connection handle is
obtained, the major API version parses and is at least 6, the endpoint is
a VirtualCenter and some datacenter contains the requested cluster; any
failed check makes it raise a `ValueError` immediately (there is no retry
path: the definition performs each check once). -/
theorem VsanClusterCheck_init_spec (host user password : String) (port : ℕ)
    (cluster : String) (context : ℕ) (env : VsanConnectEnv) :
    ((∃ st, VsanClusterCheck_init host user password port cluster context env = .ok st)
      ↔ (env.connectResult.isSome
          ∧ (∃ m, pyInt? (splitDotHead env.aboutInfo.apiVersion.data) = some m ∧ 6 ≤ m)
          ∧ env.aboutInfo.apiType = "VirtualCenter"
          ∧ (get_cluster_instance env).isSome))
    ∧ (¬ (env.connectResult.isSome
          ∧ (∃ m, pyInt? (splitDotHead env.aboutInfo.apiVersion.data) = some m ∧ 6 ≤ m)
          ∧ env.aboutInfo.apiType = "VirtualCenter"
          ∧ (get_cluster_instance env).isSome) →
        ∃ msg, VsanClusterCheck_init host user password port cluster context env
          = .error (.valueError msg)) := by
  rcases hc : env.connectResult with _ | si
  · constructor
    · simp [VsanClusterCheck_init, hc]
    · intro hn
      exact ⟨_, by simp [VsanClusterCheck_init, hc]; rfl⟩
  · rcases hm : pyInt? (splitDotHead env.aboutInfo.apiVersion.data) with _ | major
    · constructor
      · simp [VsanClusterCheck_init, hc, hm]
      · intro hn
        exact ⟨_, by simp [VsanClusterCheck_init, hc, hm]; rfl⟩
    · rcases lt_or_le major 6 with h6 | h6
      · constructor
        · constructor
          · rintro ⟨st, hst⟩
            simp [VsanClusterCheck_init, hc, hm, if_pos h6] at hst
          · rintro ⟨-, ⟨m, hm', h6'⟩, -, -⟩
            try rw [hm] at hm'
            injection hm' with e
            omega
        · intro hn
          exact ⟨_, by simp [VsanClusterCheck_init, hc, hm, if_pos h6]; rfl⟩
      · rcases ht : decide (env.aboutInfo.apiType = "VirtualCenter") with _ | _
        · have ht' : env.aboutInfo.apiType ≠ "VirtualCenter" := of_decide_eq_false ht
          constructor
          · constructor
            · rintro ⟨st, hst⟩
              simp [VsanClusterCheck_init, hc, hm, if_neg (not_lt.mpr h6), ht'] at hst
            · rintro ⟨-, -, hvc, -⟩
              exact absurd hvc ht'
          · intro hn
            exact ⟨_, by simp [VsanClusterCheck_init, hc, hm, if_neg (not_lt.mpr h6), ht']; rfl⟩
        · have ht' : env.aboutInfo.apiType = "VirtualCenter" := of_decide_eq_true ht
          rcases hgi : get_cluster_instance env with _ | ci
          · constructor
            · constructor
              · rintro ⟨st, hst⟩
                simp [VsanClusterCheck_init, hc, hm, if_neg (not_lt.mpr h6), ht', hgi] at hst
              · rintro ⟨-, -, -, hsome⟩
                try rw [hgi] at hsome
                simp at hsome
            · intro hn
              exact ⟨_, by
                simp [VsanClusterCheck_init, hc, hm, if_neg (not_lt.mpr h6), ht', hgi]; rfl⟩
          · constructor
            · constructor
              · intro _
                exact ⟨by simp [hc], ⟨major, rfl, h6⟩, ht', by simp [hgi]⟩
              · intro _
                exact ⟨_, by
                  simp [VsanClusterCheck_init, hc, hm, if_neg (not_lt.mpr h6), ht', hgi]; rfl⟩
            · intro hn
              exact absurd ⟨by simp [hc], ⟨major, rfl, h6⟩, ht', by simp [hgi]⟩ hn

/-- Witness for C5: an environment whose endpoint is not a VirtualCenter
makes construction raise a `ValueError`. -/
theorem VsanClusterCheck_init_spec_witness :
    ∃ msg, VsanClusterCheck_init "vc.local" "admin" "pw" 443 "VSAN-Cluster" 0
        ⟨some 1, 2, ⟨"6.5", "HostAgent"⟩, "vsan65", [some 7], 3⟩
      = .error (.valueError msg) :=
  (VsanClusterCheck_init_spec "vc.local" "admin" "pw" 443 "VSAN-Cluster" 0
      ⟨some 1, 2, ⟨"6.5", "HostAgent"⟩, "vsan65", [some 7], 3⟩).2
    (by intro h; exact absurd h.2.2.1 (by decide))

end VsanMonitor
